import Mathlib

/-!
# Verification of the Smart Content Aggregator core

Shallow embedding of the content ranking and summarization engine:

* `ExtractiveSummarizer` (sentence splitting, TF-IDF sentence scoring,
  top-N selection) from `summaryService` (src/unnamed/part_000, lines 31-96);
* `AISummaryService` (provider fallback chain, summary cleaning and
  validation) from the same file, lines 98-448;
* `SummaryService.generateSummaryForArticle` (lines 450-492);
* `RecommendationService` (interest / popularity / freshness / author
  signals, combined score, trending aggregation) from the same file,
  lines 505-660, together with the controller rounding
  (src/src/controller/recommendationController.ts, lines 24-28) and the
  Interaction model static `getTrendingArticles`
  (src/unnamed/part_001, lines 165-228).

JavaScript strings are modelled as Lean `String` (lists of characters,
ASCII-faithful), JavaScript numbers as `ℚ`.  The external `natural`
library's Porter stemmer and the transcendental `Math.log` / `Math.sqrt`
are abstracted as function parameters (bundled in `LibFuns`); every
theorem below is proved for an arbitrary choice of these functions, so
in particular it holds for the library's actual implementations.
Provider HTTP calls are abstracted as their observable outcomes
(`Option String`: `none` for a thrown error / timeout / short response,
`some s` for a returned candidate string).
-/

/-! ## JavaScript string primitives -/

/-- The characters matched by the JavaScript `\s` class (ASCII part),
used by `String.prototype.trim` and the `/\s+/` collapse in
`cleanSummary`. -/
def jsIsSpace (c : Char) : Bool :=
  c == ' ' || c == '\t' || c == '\n' || c == '\r' || c == '\x0b' || c == '\x0c'

/-- JavaScript `String.prototype.trim`. -/
def jsTrim (s : String) : String :=
  String.mk (((s.toList.dropWhile jsIsSpace).reverse.dropWhile jsIsSpace).reverse)

/-- JavaScript `String.prototype.toLowerCase` (ASCII). -/
def jsToLower (s : String) : String :=
  String.mk (s.toList.map Char.toLower)

/-- Split a character list on runs of characters satisfying `p`,
dropping empty tokens.  This models both the `natural` word tokenizer
(which removes empty boundary tokens) and, composed with the later
length/word filters, the regex split on `[.!?]+` in
`splitIntoSentences` (whose boundary-empty pieces are removed by those
filters). -/
def splitRunsAux (p : Char → Bool) : List Char → List Char → List String
  | [], acc => if acc.isEmpty then [] else [String.mk acc.reverse]
  | c :: cs, acc =>
    if p c then
      if acc.isEmpty then splitRunsAux p cs []
      else String.mk acc.reverse :: splitRunsAux p cs []
    else splitRunsAux p cs (c :: acc)

/-- Split a string on runs of characters satisfying `p`, dropping
empty tokens. -/
def splitRuns (p : Char → Bool) (s : String) : List String :=
  splitRunsAux p s.toList []

/-- JavaScript `s.split(c)` for a single-character separator: keeps
empty pieces (so `"".split(' ') = [""]` and `"a  b".split(' ') =
["a", "", "b"]`). -/
def splitOnCharAux (sep : Char) : List Char → List Char → List String
  | [], acc => [String.mk acc.reverse]
  | c :: cs, acc =>
    if c == sep then String.mk acc.reverse :: splitOnCharAux sep cs []
    else splitOnCharAux sep cs (c :: acc)

/-- JavaScript `s.split(' ')`, used for word counting. -/
def jsSplitOnSpace (s : String) : List String :=
  splitOnCharAux ' ' s.toList []

/-- Substring test on character lists (`needle` occurs contiguously in
the second list). -/
def includesAux : List Char → List Char → Bool
  | needle, [] => needle.isEmpty
  | needle, c :: cs => needle.isPrefixOf (c :: cs) || includesAux needle cs

/-- JavaScript `hay.includes(needle)`. -/
def strIncludes (hay needle : String) : Bool :=
  includesAux needle.toList hay.toList

/-- JavaScript `Array.prototype.join(sep)`. -/
def jsJoin (sep : String) : List String → String
  | [] => ""
  | [x] => x
  | x :: y :: ys => x ++ sep ++ jsJoin sep (y :: ys)

/-- Collapse every maximal run of whitespace to a single space
(the `replace(/\s+/g, ' ')` step of `cleanSummary`).  The boolean flag
records whether the previous character was part of a whitespace run. -/
def collapseWsAux : Bool → List Char → List Char
  | _, [] => []
  | inRun, c :: cs =>
    if jsIsSpace c then
      if inRun then collapseWsAux true cs else ' ' :: collapseWsAux true cs
    else c :: collapseWsAux false cs

/-- `replace(/\s+/g, ' ')` on a string. -/
def collapseWs (s : String) : String :=
  String.mk (collapseWsAux false s.toList)

/-- JavaScript `Math.round` (half-up, i.e. toward +∞ on ties) on an
exact rational. -/
def jsRound (q : ℚ) : ℤ := ⌊q + 1/2⌋

/-- JavaScript `a || b` for an optional string `a`: the default is used
when `a` is absent (`undefined`) or empty (falsy). -/
def jsOrElse (a : Option String) (d : String) : String :=
  match a with
  | some s => if s == "" then d else s
  | none => d

/-! ## Stable insertion sort

`Array.prototype.sort(cmp)` in the engines this service runs on
(V8 ≥ 7.0) is a stable sort that orders the array according to the
comparator; we model it by a stable insertion sort parameterised by the
boolean relation `le x y` ≡ `cmp(x, y) ≤ 0`. -/

/-- Insert `x` before the first element `y` with `le x y`. -/
def orderedInsert (le : α → α → Bool) (x : α) : List α → List α
  | [] => [x]
  | y :: ys => if le x y then x :: y :: ys else y :: orderedInsert le x ys

/-- Stable insertion sort by the boolean relation `le`. -/
def sortCmp (le : α → α → Bool) : List α → List α
  | [] => []
  | x :: xs => orderedInsert le x (sortCmp le xs)

theorem mem_orderedInsert {le : α → α → Bool} {x a : α} :
    ∀ {l : List α}, a ∈ orderedInsert le x l ↔ a = x ∨ a ∈ l
  | [] => by simp [orderedInsert]
  | y :: ys => by
    by_cases h : le x y = true
    · simp [orderedInsert, h]
    · simp only [orderedInsert, if_neg h, List.mem_cons, mem_orderedInsert (l := ys)]
      tauto

theorem mem_sortCmp {le : α → α → Bool} {a : α} :
    ∀ {l : List α}, a ∈ sortCmp le l ↔ a ∈ l
  | [] => Iff.rfl
  | x :: xs => by
    simp only [sortCmp, mem_orderedInsert, List.mem_cons, mem_sortCmp (l := xs)]

theorem length_orderedInsert (le : α → α → Bool) (x : α) :
    ∀ l : List α, (orderedInsert le x l).length = l.length + 1
  | [] => rfl
  | y :: ys => by
    by_cases h : le x y = true
    · simp [orderedInsert, h]
    · simp [orderedInsert, h, length_orderedInsert le x ys]

theorem length_sortCmp (le : α → α → Bool) :
    ∀ l : List α, (sortCmp le l).length = l.length
  | [] => rfl
  | x :: xs => by
    simp [sortCmp, length_orderedInsert, length_sortCmp le xs]

theorem pairwise_orderedInsert {le : α → α → Bool}
    (total : ∀ a b, le a b = true ∨ le b a = true)
    (trans : ∀ a b c, le a b = true → le b c = true → le a c = true) (x : α) :
    ∀ {l : List α}, l.Pairwise (fun a b => le a b = true) →
      (orderedInsert le x l).Pairwise (fun a b => le a b = true)
  | [], _ => List.pairwise_singleton _ x
  | y :: ys, h => by
    rcases List.pairwise_cons.mp h with ⟨hy, hys⟩
    by_cases hxy : le x y = true
    · rw [orderedInsert, if_pos hxy]
      refine List.pairwise_cons.mpr ⟨?_, h⟩
      intro z hz
      rcases List.mem_cons.mp hz with rfl | hz
      · exact hxy
      · exact trans x y z hxy (hy z hz)
    · rw [orderedInsert, if_neg hxy]
      refine List.pairwise_cons.mpr ⟨?_, pairwise_orderedInsert total trans x hys⟩
      intro z hz
      rcases mem_orderedInsert.mp hz with rfl | hz
      · exact (total z y).resolve_left hxy
      · exact hy z hz

theorem pairwise_sortCmp {le : α → α → Bool}
    (total : ∀ a b, le a b = true ∨ le b a = true)
    (trans : ∀ a b c, le a b = true → le b c = true → le a c = true) :
    ∀ l : List α, (sortCmp le l).Pairwise (fun a b => le a b = true)
  | [] => List.Pairwise.nil
  | x :: xs => pairwise_orderedInsert total trans x (pairwise_sortCmp total trans xs)

/-! ## External library functions

The `natural` Porter stemmer and the JavaScript `Math.log` / `Math.sqrt`
used inside the TF-IDF computation are pure functions of their argument;
we abstract them as parameters.  Every theorem is universally quantified
over a `LibFuns` value, hence holds for the actual library functions. -/

/-- Abstracted library functions: `natural.PorterStemmer.stem`,
`Math.log` and `Math.sqrt`. -/
structure LibFuns where
  stem : String → String
  rlog : ℚ → ℚ
  rsqrt : ℚ → ℚ

/-- A concrete instantiation used by closed witnesses (any instantiation
is admissible since the theorems hold for all of them). -/
def idLib : LibFuns := ⟨id, id, id⟩

/-! ## ExtractiveSummarizer (part_000 lines 31-96) -/

/-- The stop-word set of `ExtractiveSummarizer` (lines 34-40). -/
def stopWords : List String :=
  ["the", "a", "an", "and", "or", "but", "in", "on", "at", "to", "for", "of",
   "with", "by", "is", "are", "was", "were", "be", "been", "have", "has", "had",
   "do", "does", "did", "will", "would", "could", "should", "may", "might", "must",
   "can", "this", "that", "these", "those", "i", "me", "my", "you", "your", "he",
   "him", "his", "she", "her", "it", "its", "we", "us", "our", "they", "them", "their"]

/-- `natural.WordTokenizer.tokenize`: split on runs of non-word
characters (empty boundary tokens are discarded by the tokenizer). -/
def wordTokenize (s : String) : List String :=
  splitRuns (fun c => !(c.isAlphanum || c == '_')) s

/-- `splitIntoSentences` (lines 62-67): split the text on runs of
sentence-terminal punctuation, trim each piece, and keep a piece exactly
when its length exceeds 15 and its `split(' ')` count exceeds 3. -/
def splitIntoSentences (text : String) : List String :=
  ((splitRuns (fun c => c == '.' || c == '!' || c == '?') text).map jsTrim).filter
    (fun s => 15 < s.length && 3 < (jsSplitOnSpace s).length)

/-- The per-sentence term lists (lines 70-74): lowercase, tokenize, stem
each token, keep stemmed tokens of length > 2 that are not stop words. -/
def documents (stem : String → String) (sentences : List String) : List (List String) :=
  sentences.map (fun s =>
    ((wordTokenize (jsToLower s)).map stem).filter
      (fun t => 2 < t.length && !(stopWords.contains t)))

/-- Raw term frequency of `t` in the term list `doc` (the `natural`
`TfIdf` term count). -/
def tfCount (t : String) (doc : List String) : ℕ :=
  (doc.filter (fun u => u == t)).length

/-- Number of sentence-documents of the corpus containing `t`. -/
def docsWithTerm (t : String) (docs : List (List String)) : ℕ :=
  (docs.filter (fun d => d.contains t)).length

/-- The `natural` TfIdf inverse document frequency
`1 + Math.log(documents.length / (1 + docsWithTerm))`, with `Math.log`
abstracted as `L.rlog`. -/
def idfQ (L : LibFuns) (docs : List (List String)) (t : String) : ℚ :=
  1 + L.rlog ((docs.length : ℚ) / (1 + (docsWithTerm t docs : ℚ)))

/-- One entry of the array built by `calculateSentenceScores`. -/
structure ScoredSentence where
  sentence : String
  score : ℚ
  index : ℕ
deriving DecidableEq

/-- The score record of the sentence at position `index`
(lines 79-94): sum of TF-IDF weights over the sentence's terms,
normalised by `Math.sqrt(terms.length)`, multiplied by `0.9` when more
than 30 terms, plus the positional bonus (+0.15 at index 0, +0.05 at
index 1); exactly `0` when the term list is empty. -/
def sentenceScoreAt (L : LibFuns) (docs : List (List String))
    (sentence : String) (index : ℕ) : ScoredSentence :=
  let terms := docs.getD index []
  let score := (terms.map (fun t => (tfCount t terms : ℚ) * idfQ L docs t)).sum
  let positionBonus : ℚ := if index = 0 then 0.15 else if index = 1 then 0.05 else 0
  let lengthPenalty : ℚ := if 30 < terms.length then 0.9 else 1
  let normalizedScore : ℚ :=
    if 0 < terms.length then score / L.rsqrt (terms.length : ℚ) * lengthPenalty + positionBonus
    else 0
  ⟨sentence, normalizedScore, index⟩

/-- `calculateSentenceScores` (lines 69-95): map each sentence, with
its index, to its score record. -/
def calculateSentenceScores (L : LibFuns) (sentences : List String) : List ScoredSentence :=
  let docs := documents L.stem sentences
  (List.range sentences.length).map (fun i => sentenceScoreAt L docs (sentences.getD i "") i)

/-- The summary configuration record (part_000 lines 4-10); `none`
models an absent (`undefined`) option. -/
structure SummaryConfig where
  maxSentences : Option ℕ := none
  maxTokens : Option ℕ := none
  temperature : Option ℚ := none
  model : Option String := none
  maxLength : Option ℕ := none

/-- Comparator `(a, b) => b.score - a.score` of the first sort in
`generateSummary`, as the relation `cmp(a, b) ≤ 0`. -/
def scoreDescLe (a b : ScoredSentence) : Bool := decide (b.score ≤ a.score)

/-- Comparator `(a, b) => a.index - b.index` of the second sort, as the
relation `cmp(a, b) ≤ 0`. -/
def idxAscLe (a b : ScoredSentence) : Bool := decide (a.index ≤ b.index)

/-- The `topSentences` selection of `generateSummary` (lines 53-57):
sort by score descending, keep the first `maxSentences`, re-sort by
original index ascending. -/
def topSentences (L : LibFuns) (content : String) (config : SummaryConfig) : List ScoredSentence :=
  let maxSentences := config.maxSentences.getD 3
  let sentenceScores := calculateSentenceScores L (splitIntoSentences content)
  sortCmp idxAscLe ((sortCmp scoreDescLe sentenceScores).take maxSentences)

/-- `ExtractiveSummarizer.generateSummary` (lines 42-60). -/
def generateSummary (L : LibFuns) (content : String) (config : SummaryConfig) : String :=
  let maxSentences := config.maxSentences.getD 3
  let sentences := splitIntoSentences content
  if sentences.length ≤ maxSentences then jsJoin " " sentences
  else jsJoin " " ((topSentences L content config).map (fun x => x.sentence))

/-! ## AISummaryService (part_000 lines 98-448) -/

/-- First step of `cleanSummary`: `replace(/^\[.*?\]\s*/, '')` — strip a
leading bracketed prefix up to the first `]` (the lazy `.*?` cannot
cross a line terminator) together with the whitespace that follows. -/
def stripLeadingBracket (s : String) : String :=
  match s.toList with
  | c :: rest =>
    if c == '[' then
      let pre := rest.takeWhile (fun d => !(d == ']'))
      let post := rest.dropWhile (fun d => !(d == ']'))
      if post.isEmpty then s
      else if pre.any (fun d => d == '\n' || d == '\r') then s
      else String.mk (post.tail.dropWhile jsIsSpace)
    else s
  | [] => s

/-- Second step: `replace(/^(summary|summary:)\s*/i, '')`.  The ordered
alternation always matches the bare `summary` alternative when the
prefix is present, so exactly 7 characters plus the following
whitespace are removed (a `:` after the label survives). -/
def stripSummaryLabel (s : String) : String :=
  if "summary".toList.isPrefixOf (jsToLower s).toList then
    String.mk ((s.toList.drop 7).dropWhile jsIsSpace)
  else s

/-- Fourth step: `replace(/^["']|["']$/g, '')` — remove one leading and
one trailing quote character. -/
def stripWrappingQuotes (s : String) : String :=
  let afterHead :=
    match s.toList with
    | c :: cs => if c == '"' || c == '\'' then cs else c :: cs
    | [] => []
  match afterHead.reverse with
  | c :: cs => if c == '"' || c == '\'' then String.mk cs.reverse else String.mk afterHead
  | [] => ""

/-- `AISummaryService.cleanSummary` (lines 379-386). -/
def cleanSummary (s : String) : String :=
  jsTrim (stripWrappingQuotes (collapseWs (stripSummaryLabel (stripLeadingBracket s))))

/-- `AISummaryService.isValidSummary` (lines 366-377): the candidate is
cleaned, then accepted exactly when it is non-empty, at least 20
characters long, strictly shorter than 80% of the source document,
contains at least 10 `split(' ')` words, and contains none of the
substrings `error` / `failed` (case-insensitively) / `undefined`. -/
def isValidSummary (summary originalContent : String) : Bool :=
  let c := cleanSummary summary
  !(c == "") &&
  decide (20 ≤ c.length) &&
  decide ((c.length : ℚ) < (originalContent.length : ℚ) * 0.8) &&
  decide (10 ≤ (jsSplitOnSpace c).length) &&
  !(strIncludes (jsToLower c) "error") &&
  !(strIncludes (jsToLower c) "failed") &&
  !(strIncludes c "undefined")

/-- The observable outcome of each provider attempt in the fallback
chain of `generateBestSummary`: `none` when the attempt threw (missing
credential, timeout, transport error, malformed / empty / too-short
response), `some s` when the attempt returned the candidate `s`. -/
structure ProviderOutcomes where
  ollama : Option String
  cohere : Option String
  huggingface : Option String
  openai : Option String

/-- The `method` discriminator of a generated summary. -/
inductive SummaryMethod where
  | ai
  | extractive
deriving DecidableEq

/-- The record returned by `generateBestSummary`. -/
structure BestSummary where
  summary : String
  provider : String
  model : String
  method : SummaryMethod
deriving DecidableEq

/-- `AISummaryService.generateBestSummary` (lines 321-359): try the
providers in order ollama, cohere, huggingface, openai; the first
attempt that returned a candidate accepted by `isValidSummary` wins
(method `ai`, model `config.model || 'default'`); if every attempt
fails or is rejected, fall back to the extractive summarizer (provider
`extractive`, model `tf-idf`, method `extractive`). -/
def generateBestSummary (L : LibFuns) (o : ProviderOutcomes)
    (content : String) (config : SummaryConfig) : BestSummary :=
  let attempt : String × Option String → Option BestSummary := fun p =>
    match p.2 with
    | some summary =>
      if isValidSummary summary content then
        some ⟨summary, p.1, jsOrElse config.model "default", .ai⟩
      else none
    | none => none
  match ([("ollama", o.ollama), ("cohere", o.cohere),
          ("huggingface", o.huggingface), ("openai", o.openai)].findSome? attempt) with
  | some r => r
  | none => ⟨generateSummary L content config, "extractive", "tf-idf", .extractive⟩

/-! ## SummaryService (part_000 lines 450-492) -/

/-- The record returned by `SummaryService.generateSummaryForArticle`. -/
structure ArticleSummary where
  summary : String
  generated : Bool
  provider : String
  model : String
  method : SummaryMethod
deriving DecidableEq

/-- `SummaryService.generateSummaryForArticle` (lines 454-480): a
user-supplied summary with non-empty trim is passed through trimmed
(`generated = false`, provider `user-provided`, model `none`);
otherwise the provider chain runs with `maxSentences = 3`. -/
def generateSummaryForArticle (L : LibFuns) (o : ProviderOutcomes)
    (content : String) (existingSummary : Option String) : ArticleSummary :=
  match existingSummary with
  | some s =>
    if !(s == "") && !(jsTrim s == "") then
      ⟨jsTrim s, false, "user-provided", "none", .extractive⟩
    else
      let r := generateBestSummary L o content { maxSentences := some 3 }
      ⟨r.summary, true, r.provider, r.model, r.method⟩
  | none =>
    let r := generateBestSummary L o content { maxSentences := some 3 }
    ⟨r.summary, true, r.provider, r.model, r.method⟩

/-! ## RecommendationService data model (part_000 lines 494-660,
part_001) -/

/-- An article record (the fields the recommendation core reads);
`createdAt` is a Unix timestamp in milliseconds (`Date.now()` style
integral values). -/
structure Article where
  id : ℕ
  author : String
  tags : List String
  createdAt : ℤ
deriving DecidableEq

/-- A user record. -/
structure User where
  username : String
  interests : List String
deriving DecidableEq

/-- The closed interaction type set. -/
inductive InteractionType where
  | view
  | like
  | share
  | comment
deriving DecidableEq

/-- An interaction record; `createdAt` is a Unix timestamp in
milliseconds. -/
structure Interaction where
  userId : ℕ
  articleId : ℕ
  interactionType : InteractionType
  createdAt : ℤ
deriving DecidableEq

/-- `RecommendationService.calculateInterestScore` (lines 574-584):
fraction of the user's interests that substring-match (in either
direction) some article tag; `0` when either list is empty. -/
def calculateInterestScore (userInterests articleTags : List String) : ℚ :=
  if userInterests.length = 0 || articleTags.length = 0 then 0
  else
    let matchingTags := userInterests.filter (fun interest =>
      articleTags.any (fun tag => strIncludes tag interest || strIncludes interest tag))
    (matchingTags.length : ℚ) / (userInterests.length : ℚ)

/-- `RecommendationService.getMatchingInterests` (lines 586-590). -/
def getMatchingInterests (userInterests articleTags : List String) : List String :=
  userInterests.filter (fun interest =>
    articleTags.any (fun tag => strIncludes tag interest || strIncludes interest tag))

/-- `RecommendationService.calculatePopularityScore` (lines 592-611):
weighted interaction count over all interactions on the article
(view 1, like 3, share 5, comment 4), divided by 100 and capped at 1. -/
def calculatePopularityScore (interactions : List Interaction) (articleId : ℕ) : ℚ :=
  let cnt : InteractionType → ℕ := fun t =>
    (interactions.filter (fun i => i.articleId == articleId && i.interactionType == t)).length
  let totalScore : ℚ :=
    (cnt .view : ℚ) * 1 + (cnt .like : ℚ) * 3 + (cnt .share : ℚ) * 5 + (cnt .comment : ℚ) * 4
  min (totalScore / 100) 1

/-- `RecommendationService.calculateFreshnessScore` (lines 613-622):
step function of the article age in days. -/
def calculateFreshnessScore (now createdAt : ℤ) : ℚ :=
  let ageInDays : ℚ := ((now - createdAt : ℤ) : ℚ) / (1000 * 60 * 60 * 24)
  if ageInDays ≤ 1 then 1
  else if ageInDays ≤ 7 then 0.9
  else if ageInDays ≤ 30 then 0.7
  else if ageInDays ≤ 90 then 0.4
  else 0.2

/-- `RecommendationService.calculateAuthorScore` (lines 624-637):
`Article.find({author}).limit(10)` returns the first at most 10 stored
articles of the author (store order); the score is `0.5` when that
list is empty and otherwise the mean popularity score of its members. -/
def calculateAuthorScore (articles : List Article) (interactions : List Interaction)
    (author : String) : ℚ :=
  let authorArticles := (articles.filter (fun a => a.author == author)).take 10
  if authorArticles.isEmpty then 0.5
  else
    (authorArticles.map (fun a => calculatePopularityScore interactions a.id)).sum /
      (authorArticles.length : ℚ)

/-- The record produced by `calculateRecommendationScore`. -/
structure RecommendationScore where
  article : Article
  score : ℚ
  reasons : List String
deriving DecidableEq

/-- `RecommendationService.calculateRecommendationScore`
(lines 535-572): weighted sum `0.4·interest + 0.3·popularity +
0.2·freshness + 0.1·author`, capped at 1, with threshold-triggered
reasons. -/
def calculateRecommendationScore (articles : List Article)
    (interactions : List Interaction) (now : ℤ) (user : User)
    (article : Article) : RecommendationScore :=
  let interestScore := calculateInterestScore user.interests article.tags
  let popularityScore := calculatePopularityScore interactions article.id
  let freshnessScore := calculateFreshnessScore now article.createdAt
  let authorScore := calculateAuthorScore articles interactions article.author
  let score := interestScore * 0.4 + popularityScore * 0.3 +
    freshnessScore * 0.2 + authorScore * 0.1
  let reasons :=
    (if 0 < interestScore then
      ["Matches your interests: " ++
        jsJoin ", " (getMatchingInterests user.interests article.tags)]
     else []) ++
    (if 0.7 < popularityScore then ["Popular among users"] else []) ++
    (if 0.8 < freshnessScore then ["Recent content"] else []) ++
    (if 0.7 < authorScore then ["From popular author"] else [])
  let reasons := if reasons.isEmpty then ["General recommendation"] else reasons
  ⟨article, min score 1, reasons⟩

/-- One element of the response body built by
`RecommendationController.getRecommendations`
(recommendationController.ts lines 24-28). -/
structure FormattedRecommendation where
  article : Article
  score : ℚ
  reasons : List String
deriving DecidableEq

/-- The controller mapping (lines 24-28): each score is replaced by
`Math.round(score * 100) / 100`. -/
def formatRecommendations (recs : List RecommendationScore) : List FormattedRecommendation :=
  recs.map (fun rec => ⟨rec.article, (jsRound (rec.score * 100) : ℚ) / 100, rec.reasons⟩)

/-! ## Trending aggregation -/

/-- `$match: {createdAt: {$gte: now - hours·3600000}}` — membership of
an interaction in the trailing window. -/
def inWindow (now hours : ℤ) (i : Interaction) : Bool :=
  decide (now - hours * 3600000 ≤ i.createdAt)

/-- First-occurrence deduplication, modelling the grouping key set of a
`$group` stage (the order of groups is irrelevant: a `$sort` stage
follows in both pipelines). -/
def dedupNatAux (seen : List ℕ) : List ℕ → List ℕ
  | [] => []
  | x :: xs =>
    if seen.contains x then dedupNatAux seen xs
    else x :: dedupNatAux (x :: seen) xs

/-- All distinct values of a list, in order of first occurrence. -/
def dedupNat (l : List ℕ) : List ℕ := dedupNatAux [] l

/-- The per-article group of the Interaction model static
`getTrendingArticles` (part_001 lines 174-201): per-type counts plus
`engagementScore = views + 3·likes + 5·shares + 4·comments`. -/
structure TrendStats where
  totalInteractions : ℕ
  likes : ℕ
  shares : ℕ
  comments : ℕ
  views : ℕ
  engagementScore : ℕ
deriving DecidableEq

/-- Build the `TrendStats` group of `articleId` from the windowed
interactions. -/
def statsFor (windowed : List Interaction) (articleId : ℕ) : TrendStats :=
  let mine := windowed.filter (fun i => i.articleId == articleId)
  let cnt : InteractionType → ℕ := fun t =>
    (mine.filter (fun i => i.interactionType == t)).length
  { totalInteractions := mine.length
    likes := cnt .like
    shares := cnt .share
    comments := cnt .comment
    views := cnt .view
    engagementScore := cnt .view + 3 * cnt .like + 5 * cnt .share + 4 * cnt .comment }

/-- The `$sort: {engagementScore: -1, totalInteractions: -1}` order of
the model static, as the relation `cmp(a, b) ≤ 0`. -/
def trendLe (a b : ℕ × TrendStats) : Bool :=
  decide (b.2.engagementScore < a.2.engagementScore) ||
  (decide (a.2.engagementScore = b.2.engagementScore) &&
   decide (b.2.totalInteractions ≤ a.2.totalInteractions))

/-- `InteractionSchema.statics.getTrendingArticles` (part_001
lines 165-228): window, group by article, add the engagement score,
sort by engagement then raw count (both descending), keep the top
`limit` groups, and `$lookup`/`$unwind` each group with its article
record (groups whose article is missing are dropped by `$unwind`). -/
def modelGetTrendingArticles (interactions : List Interaction)
    (articles : List Article) (now : ℤ) (hours : ℤ) (limit : ℕ) :
    List (Article × TrendStats) :=
  let windowed := interactions.filter (inWindow now hours)
  let groups := (dedupNat (windowed.map (fun i => i.articleId))).map
    (fun aid => (aid, statsFor windowed aid))
  let sorted := sortCmp trendLe groups
  (sorted.take limit).filterMap (fun g =>
    (articles.find? (fun a => a.id == g.1)).map (fun a => (a, g.2)))

/-- The `$sort: {likeCount: -1, interactionCount: -1}` order of
`RecommendationService.getTrendingArticles`, on tuples
`(articleId, interactionCount, likeCount)`. -/
def svcTrendLe (a b : ℕ × ℕ × ℕ) : Bool :=
  decide (b.2.2 < a.2.2) || (decide (a.2.2 = b.2.2) && decide (b.2.1 ≤ a.2.1))

/-- `RecommendationService.getTrendingArticles` (part_000
lines 639-659): over the trailing 24 hours, group interactions by
article with `interactionCount` and `likeCount`, sort by like count
then raw count (both descending), keep the top `limit` article ids,
and return `Article.find({_id: {$in: ids}})` — the stored articles
with those ids **in store order** (the `$in` query does not preserve
the ranking). -/
def serviceGetTrendingArticles (interactions : List Interaction)
    (articles : List Article) (now : ℤ) (limit : ℕ) : List Article :=
  let windowed := interactions.filter (inWindow now 24)
  let groups := (dedupNat (windowed.map (fun i => i.articleId))).map
    (fun aid => (aid,
      (windowed.filter (fun i => i.articleId == aid)).length,
      (windowed.filter (fun i =>
        i.articleId == aid && i.interactionType == InteractionType.like)).length))
  let sorted := sortCmp svcTrendLe groups
  let topIds := (sorted.take limit).map (fun g => g.1)
  articles.filter (fun a => topIds.contains a.id)

/-! ## Claim theorems -/

/-- Claim C9: for every content string and every `existingSummary` whose
trimmed value is non-empty, `generateSummaryForArticle` returns the
trimmed `existingSummary` with `generated = false` and provider
`user-provided`; the result is the same for every provider-outcome
vector, i.e. no provider call and no validator run can influence it
(the user-supplied summary is passed through without any quality
check). -/
theorem generateSummaryForArticle_passthrough (L : LibFuns) (o : ProviderOutcomes)
    (content s : String) (h : jsTrim s ≠ "") :
    generateSummaryForArticle L o content (some s) =
      ⟨jsTrim s, false, "user-provided", "none", SummaryMethod.extractive⟩ := by
  have hs : s ≠ "" := by
    intro he
    subst he
    exact h rfl
  unfold generateSummaryForArticle
  simp [hs, h]

/-- Witness for C9 at a concrete input. -/
theorem generateSummaryForArticle_passthrough_witness :
    generateSummaryForArticle idLib ⟨none, none, none, none⟩ "irrelevant content"
        (some "  a user supplied summary  ") =
      ⟨jsTrim "  a user supplied summary  ", false, "user-provided", "none",
        SummaryMethod.extractive⟩ :=
  generateSummaryForArticle_passthrough idLib ⟨none, none, none, none⟩
    "irrelevant content" "  a user supplied summary  " (by decide)

/-- Claim C7 as stated is false: the code keeps a trimmed piece only
when its length strictly exceeds 15, so a candidate of length exactly
15 (not "shorter than 15 characters") with more than 3 words is
nevertheless discarded.  Concretely, the first sentence piece
`"aa bb cc dd eee"` (15 characters, 5 space-delimited words, unchanged
by trimming) does not appear in the split result. -/
theorem splitIntoSentences_counterexample :
    splitIntoSentences "aa bb cc dd eee. this sentence is long enough to stay qualified" =
        ["this sentence is long enough to stay qualified"] ∧
      jsTrim "aa bb cc dd eee" = "aa bb cc dd eee" ∧
      ¬ ("aa bb cc dd eee".length < 15) ∧
      3 < (jsSplitOnSpace "aa bb cc dd eee").length := by
  refine ⟨by decide, by decide, by decide, by decide⟩

/-- Claim C7, amended: sentence splitting partitions on runs of
`.`/`!`/`?`, trims each piece, and keeps exactly those candidates whose
length strictly exceeds 15 characters (so pieces of length 15 are
discarded too) and whose `split(' ')` word count strictly exceeds 3. -/
theorem splitIntoSentences_membership (text s : String) :
    s ∈ splitIntoSentences text ↔
      s ∈ (splitRuns (fun c => c == '.' || c == '!' || c == '?') text).map jsTrim ∧
        15 < s.length ∧ 3 < (jsSplitOnSpace s).length := by
  unfold splitIntoSentences
  simp [List.mem_filter, and_assoc]

/-- Helper: the score record at a valid index of
`calculateSentenceScores`. -/
theorem calculateSentenceScores_getD (L : LibFuns) (sentences : List String) (i : ℕ)
    (h : i < sentences.length) (d : ScoredSentence) :
    (calculateSentenceScores L sentences).getD i d =
      sentenceScoreAt L (documents L.stem sentences) (sentences.getD i "") i := by
  unfold calculateSentenceScores
  rw [List.getD_eq_getElem?_getD, List.getElem?_map, List.getElem?_range h]
  rfl

/-- Claim C10: a sentence whose filtered term list is empty receives a
score of exactly `0` — the guarded branch is taken, so neither the
division by `Math.sqrt(terms.length)` nor the positional bonus is
applied, whatever the sentence index (in the `ℚ` model the guard is
precisely what prevents the JavaScript `0/0 = NaN`). -/
theorem score_zero_of_empty_terms (L : LibFuns) (sentences : List String) (i : ℕ)
    (h : (documents L.stem sentences)[i]? = some []) :
    ((calculateSentenceScores L sentences).getD i ⟨"", 0, 0⟩).score = 0 := by
  have hilen : i < (documents L.stem sentences).length := by
    rcases List.getElem?_eq_some.mp h with ⟨hlt, _⟩
    exact hlt
  have hi : i < sentences.length := by
    simpa [documents] using hilen
  rw [calculateSentenceScores_getD L sentences i hi]
  unfold sentenceScoreAt
  simp [List.getD, h]

/-- Witness for C10 at a concrete input: a long-enough sentence made of
stop words and short tokens has an empty term list and, although it is
the first sentence, its score is `0` (no `+0.15` bonus). -/
theorem score_zero_of_empty_terms_witness :
    ((calculateSentenceScores idLib ["the and for with that on in at"]).getD 0
        ⟨"", 0, 0⟩).score = 0 :=
  score_zero_of_empty_terms idLib ["the and for with that on in at"] 0 (by decide)

/-- Claim C8: two sentences with identical term profiles are scored
from the same TF-IDF sum, normalisation and length penalty, so their
scores differ only by the positional bonus (+0.15 at index 0, +0.05 at
index 1, 0 otherwise), which is non-increasing in the index; hence the
earlier sentence scores ≥ the later one.  This holds for every stemmer
and every interpretation of `Math.log` / `Math.sqrt`. -/
theorem earlier_sentence_scores_ge (L : LibFuns) (sentences : List String) (i j : ℕ)
    (hij : i < j) (hj : j < sentences.length)
    (hdocs : (documents L.stem sentences).getD i [] = (documents L.stem sentences).getD j []) :
    ((calculateSentenceScores L sentences).getD j ⟨"", 0, 0⟩).score ≤
      ((calculateSentenceScores L sentences).getD i ⟨"", 0, 0⟩).score := by
  have hi : i < sentences.length := hij.trans hj
  rw [calculateSentenceScores_getD L sentences i hi, calculateSentenceScores_getD L sentences j hj]
  unfold sentenceScoreAt
  simp only [← hdocs]
  set T := (documents L.stem sentences).getD i [] with hT
  by_cases hT0 : 0 < T.length
  · simp only [if_pos hT0]
    apply add_le_add_left
    have hj0 : j ≠ 0 := by omega
    by_cases hi0 : i = 0
    · by_cases hj1 : j = 1
      · simp only [hi0, hj0, hj1]
        norm_num
      · simp only [hi0, hj0, hj1]
        norm_num
    · have hj1 : j ≠ 1 := by omega
      by_cases hi1 : i = 1
      · simp only [hi0, hi1, hj0, hj1]
        norm_num
      · simp only [hi0, hi1, hj0, hj1]
        norm_num
  · simp [if_neg hT0]

/-- Witness for C8 at a concrete input: two identical sentences at
indices 0 and 1. -/
theorem earlier_sentence_scores_ge_witness :
    ((calculateSentenceScores idLib
          ["zanzibar quokka nimbus flute", "zanzibar quokka nimbus flute",
           "totally different words appear here now"]).getD 1 ⟨"", 0, 0⟩).score ≤
      ((calculateSentenceScores idLib
          ["zanzibar quokka nimbus flute", "zanzibar quokka nimbus flute",
           "totally different words appear here now"]).getD 0 ⟨"", 0, 0⟩).score :=
  earlier_sentence_scores_ge idLib
    ["zanzibar quokka nimbus flute", "zanzibar quokka nimbus flute",
     "totally different words appear here now"] 0 1
    (by decide) (by decide) (by decide)

/-- Claim C5: whenever scoring occurs (more qualifying sentences than
`maxSentences`), the summary is the selected sentences joined by a
single space, the selection is in non-decreasing original-index order
regardless of the score order, and exactly `maxSentences` sentences
are selected. -/
theorem generateSummary_selection_ordered (L : LibFuns) (content : String)
    (config : SummaryConfig)
    (h : config.maxSentences.getD 3 < (splitIntoSentences content).length) :
    generateSummary L content config =
        jsJoin " " ((topSentences L content config).map (fun x => x.sentence)) ∧
      (topSentences L content config).Pairwise (fun a b => a.index ≤ b.index) ∧
      (topSentences L content config).length = config.maxSentences.getD 3 := by
  refine ⟨?_, ?_, ?_⟩
  · unfold generateSummary
    rw [if_neg (not_le.mpr h)]
  · have tot : ∀ a b : ScoredSentence, idxAscLe a b = true ∨ idxAscLe b a = true := by
      intro a b
      unfold idxAscLe
      rcases le_total a.index b.index with hab | hab <;> simp [hab]
    have trns : ∀ a b c : ScoredSentence,
        idxAscLe a b = true → idxAscLe b c = true → idxAscLe a c = true := by
      intro a b c
      unfold idxAscLe
      simp only [decide_eq_true_eq]
      omega
    have hp := pairwise_sortCmp tot trns
      ((sortCmp scoreDescLe (calculateSentenceScores L (splitIntoSentences content))).take
        (config.maxSentences.getD 3))
    unfold topSentences
    exact hp.imp (by
      intro a b hab
      simpa [idxAscLe] using hab)
  · unfold topSentences
    rw [length_sortCmp, List.length_take, length_sortCmp]
    have hlen : (calculateSentenceScores L (splitIntoSentences content)).length =
        (splitIntoSentences content).length := by
      unfold calculateSentenceScores
      simp
    rw [hlen]
    exact min_eq_left (le_of_lt h)

/-- Witness for C5 at a concrete input: four qualifying sentences with
the default `maxSentences = 3`. -/
theorem generateSummary_selection_ordered_witness :
    generateSummary idLib
        "the first sentence is quite long indeed. the second sentence is also quite long. a third lengthy sentence appears in this spot. the fourth sentence closes out this paragraph."
        {} =
        jsJoin " " ((topSentences idLib
          "the first sentence is quite long indeed. the second sentence is also quite long. a third lengthy sentence appears in this spot. the fourth sentence closes out this paragraph."
          {}).map (fun x => x.sentence)) ∧
      (topSentences idLib
        "the first sentence is quite long indeed. the second sentence is also quite long. a third lengthy sentence appears in this spot. the fourth sentence closes out this paragraph."
        {}).Pairwise (fun a b => a.index ≤ b.index) ∧
      (topSentences idLib
        "the first sentence is quite long indeed. the second sentence is also quite long. a third lengthy sentence appears in this spot. the fourth sentence closes out this paragraph."
        {}).length = ({} : SummaryConfig).maxSentences.getD 3 :=
  generateSummary_selection_ordered idLib
    "the first sentence is quite long indeed. the second sentence is also quite long. a third lengthy sentence appears in this spot. the fourth sentence closes out this paragraph."
    {} (by decide)

/-- Claim C6: the validator, applied to the cleaned candidate, rejects
exactly when at least one of the following holds of the cleaned string:
length < 20; length ≥ 80% of the source document's length; fewer than
10 `split(' ')` words; contains `error` or `failed` case-insensitively;
contains the substring `undefined` (in particular a cleaned candidate
containing `undefined` is always rejected).  The code's extra
truthiness test on the cleaned string is absorbed by the length
condition, since an empty string has length 0 < 20. -/
theorem validator_rejects_iff (summary content : String) :
    isValidSummary summary content = false ↔
      ((cleanSummary summary).length < 20 ∨
       (content.length : ℚ) * 0.8 ≤ ((cleanSummary summary).length : ℚ) ∨
       (jsSplitOnSpace (cleanSummary summary)).length < 10 ∨
       strIncludes (jsToLower (cleanSummary summary)) "error" = true ∨
       strIncludes (jsToLower (cleanSummary summary)) "failed" = true ∨
       strIncludes (cleanSummary summary) "undefined" = true) := by
  have hempty : cleanSummary summary = "" → (cleanSummary summary).length < 20 := by
    intro h
    rw [h]
    decide
  unfold isValidSummary
  simp only [Bool.and_eq_false_iff, Bool.not_eq_false', decide_eq_false_iff_not, not_le,
    not_lt, beq_iff_eq, Bool.not_eq_false, or_assoc]
  exact or_iff_right_of_imp (fun hz => Or.inl (hempty hz))

/-- Claim C3 as stated is false: when the author has no other articles
besides the candidate, `Article.find({author}).limit(10)` still returns
the candidate itself, so the author score is the candidate's own
popularity score, not the neutral prior `0.5`.  Concretely, a single
stored article with no interactions yields author score `0 ≠ 0.5`
(the `0.5` branch is reachable only when the author has no stored
articles at all). -/
theorem calculateAuthorScore_counterexample :
    calculateAuthorScore [⟨1, "alice", [], 0⟩] [] "alice" =
        calculatePopularityScore [] 1 ∧
      calculateAuthorScore [⟨1, "alice", [], 0⟩] [] "alice" ≠ 1/2 := by
  constructor
  · norm_num [calculateAuthorScore, calculatePopularityScore, List.filter]
  · norm_num [calculateAuthorScore, calculatePopularityScore, List.filter]

/-- Claim C3, amended: the author-reputation signal averages the
popularity scores of the author's stored articles (the first at most
10, in store order), a set that includes the candidate itself; when the
candidate is the author's only stored article the signal equals the
candidate's own popularity score, and the neutral `0.5` arises only
when the author has no stored articles at all. -/
theorem calculateAuthorScore_single_article (articles : List Article)
    (interactions : List Interaction) (a : Article)
    (h : articles.filter (fun x => x.author == a.author) = [a]) :
    calculateAuthorScore articles interactions a.author =
      calculatePopularityScore interactions a.id := by
  unfold calculateAuthorScore
  rw [h]
  simp [List.take_succ_cons]

/-- Witness for the amended C3 at a concrete input. -/
theorem calculateAuthorScore_single_article_witness :
    calculateAuthorScore [⟨1, "alice", [], 0⟩] [⟨9, 1, InteractionType.like, 0⟩]
        (Article.author ⟨1, "alice", [], 0⟩) =
      calculatePopularityScore [⟨9, 1, InteractionType.like, 0⟩]
        (Article.id ⟨1, "alice", [], 0⟩) :=
  calculateAuthorScore_single_article [⟨1, "alice", [], 0⟩]
    [⟨9, 1, InteractionType.like, 0⟩] ⟨1, "alice", [], 0⟩ (by decide)

/-- Totality of the trending comparator. -/
theorem trendLe_total (a b : ℕ × TrendStats) : trendLe a b = true ∨ trendLe b a = true := by
  unfold trendLe
  simp only [Bool.or_eq_true, Bool.and_eq_true, decide_eq_true_eq]
  omega

/-- Transitivity of the trending comparator. -/
theorem trendLe_trans (a b c : ℕ × TrendStats) (hab : trendLe a b = true)
    (hbc : trendLe b c = true) : trendLe a c = true := by
  unfold trendLe at hab hbc ⊢
  simp only [Bool.or_eq_true, Bool.and_eq_true, decide_eq_true_eq] at hab hbc ⊢
  omega

/-- Claim C2 as stated is false for the exposed
`RecommendationService.getTrendingArticles`: its `$sort` key is
`{likeCount: -1, interactionCount: -1}` rather than the weighted
engagement score, and the final `Article.find({_id: {$in: ids}})`
returns the articles in store order, not in ranking order.  Concretely,
with two in-window view interactions on article 1 and one on article 2
(engagement 2 versus 1) and the store holding article 2 first, the
returned list is `[article 2, article 1]` although article 1 has the
strictly greater engagement score. -/
theorem serviceTrending_counterexample :
    serviceGetTrendingArticles
        [⟨5, 1, InteractionType.view, 0⟩, ⟨6, 1, InteractionType.view, 0⟩,
         ⟨7, 2, InteractionType.view, 0⟩]
        [⟨2, "b", [], 0⟩, ⟨1, "a", [], 0⟩] 0 10 =
      [⟨2, "b", [], 0⟩, ⟨1, "a", [], 0⟩] ∧
    (statsFor (([⟨5, 1, InteractionType.view, 0⟩, ⟨6, 1, InteractionType.view, 0⟩,
        ⟨7, 2, InteractionType.view, 0⟩] : List Interaction).filter (inWindow 0 24))
        2).engagementScore <
      (statsFor (([⟨5, 1, InteractionType.view, 0⟩, ⟨6, 1, InteractionType.view, 0⟩,
        ⟨7, 2, InteractionType.view, 0⟩] : List Interaction).filter (inWindow 0 24))
        1).engagementScore := by
  exact ⟨by decide, by decide⟩

/-- Claim C2, amended: the claimed behavior — trailing window, groups
ordered descending by engagement = views·1 + likes·3 + shares·5 +
comments·4 with ties broken descending by raw interaction count, top N
joined with their article records in that order — is implemented by the
Interaction model static `getTrendingArticles` (part_001), whose output
is proved here to be engagement-sorted, at most `limit` long, and
unchanged when interactions outside the window are discarded.  The
exposed `RecommendationService.getTrendingArticles` does not satisfy
the claim (see the counterexample): it sorts by like count, then raw
count, and returns the matching articles in store order. -/
theorem modelTrending_sorted (interactions : List Interaction) (articles : List Article)
    (now hours : ℤ) (limit : ℕ) :
    (modelGetTrendingArticles interactions articles now hours limit).Pairwise
        (fun p q => q.2.engagementScore < p.2.engagementScore ∨
          (p.2.engagementScore = q.2.engagementScore ∧
            q.2.totalInteractions ≤ p.2.totalInteractions)) ∧
      (modelGetTrendingArticles interactions articles now hours limit).length ≤ limit ∧
      modelGetTrendingArticles (interactions.filter (inWindow now hours)) articles now hours
          limit =
        modelGetTrendingArticles interactions articles now hours limit := by
  refine ⟨?_, ?_, ?_⟩
  · unfold modelGetTrendingArticles
    rw [List.pairwise_filterMap]
    have hsorted := pairwise_sortCmp trendLe_total trendLe_trans
      ((dedupNat ((interactions.filter (inWindow now hours)).map
        (fun i => i.articleId))).map
        (fun aid => (aid, statsFor (interactions.filter (inWindow now hours)) aid)))
    have htake := hsorted.sublist (List.take_sublist limit _)
    refine htake.imp ?_
    intro g g' hle b hb b' hb'
    rcases Option.map_eq_some'.mp ((Option.mem_def).mp hb) with ⟨a, _, rfl⟩
    rcases Option.map_eq_some'.mp ((Option.mem_def).mp hb') with ⟨a', _, rfl⟩
    unfold trendLe at hle
    simp only [Bool.or_eq_true, Bool.and_eq_true, decide_eq_true_eq] at hle
    exact hle
  · unfold modelGetTrendingArticles
    exact le_trans (List.length_filterMap_le _ _) (List.length_take_le _ _)
  · have hw : (interactions.filter (inWindow now hours)).filter (inWindow now hours) =
        interactions.filter (inWindow now hours) := by
      simp [List.filter_filter]
    unfold modelGetTrendingArticles
    rw [hw]

/-- The interest signal lies in `[0, 1]`. -/
theorem interestScore_bounds (userInterests articleTags : List String) :
    0 ≤ calculateInterestScore userInterests articleTags ∧
      calculateInterestScore userInterests articleTags ≤ 1 := by
  unfold calculateInterestScore
  split_ifs with h
  · norm_num
  · simp only [Bool.or_eq_true, decide_eq_true_eq, not_or] at h
    have hpos : 0 < (userInterests.length : ℚ) := by
      have : 0 < userInterests.length := Nat.pos_of_ne_zero h.1
      exact_mod_cast this
    constructor
    · positivity
    · rw [div_le_one hpos]
      exact_mod_cast List.length_filter_le _ _

/-- The popularity signal lies in `[0, 1]`. -/
theorem popularityScore_bounds (interactions : List Interaction) (articleId : ℕ) :
    0 ≤ calculatePopularityScore interactions articleId ∧
      calculatePopularityScore interactions articleId ≤ 1 := by
  unfold calculatePopularityScore
  constructor
  · apply le_min _ (by norm_num)
    positivity
  · exact min_le_right _ _

/-- The freshness signal lies in `[0, 1]`. -/
theorem freshnessScore_bounds (now createdAt : ℤ) :
    0 ≤ calculateFreshnessScore now createdAt ∧
      calculateFreshnessScore now createdAt ≤ 1 := by
  unfold calculateFreshnessScore
  dsimp only
  split_ifs <;> norm_num

/-- The author-reputation signal lies in `[0, 1]`. -/
theorem authorScore_bounds (articles : List Article) (interactions : List Interaction)
    (author : String) :
    0 ≤ calculateAuthorScore articles interactions author ∧
      calculateAuthorScore articles interactions author ≤ 1 := by
  unfold calculateAuthorScore
  dsimp only
  split_ifs with h
  · norm_num
  · have hne : (articles.filter (fun a => a.author == author)).take 10 ≠ [] := by
      simpa [List.isEmpty_iff] using h
    have hpos : 0 < (((articles.filter (fun a => a.author == author)).take 10).length : ℚ) := by
      have : 0 < ((articles.filter (fun a => a.author == author)).take 10).length :=
        List.length_pos.mpr hne
      exact_mod_cast this
    constructor
    · apply div_nonneg _ hpos.le
      apply List.sum_nonneg
      intro x hx
      rcases List.mem_map.mp hx with ⟨a, _, rfl⟩
      exact (popularityScore_bounds interactions a.id).1
    · rw [div_le_one hpos]
      have hb := List.sum_le_card_nsmul
        (((articles.filter (fun a => a.author == author)).take 10).map
          (fun a => calculatePopularityScore interactions a.id)) 1
        (by
          intro x hx
          rcases List.mem_map.mp hx with ⟨a, _, rfl⟩
          exact (popularityScore_bounds interactions a.id).2)
      simpa [nsmul_eq_mul] using hb

/-- Rounding to two decimals preserves the interval `[0, 1]`. -/
theorem jsRound_div_bounds (q : ℚ) (h0 : 0 ≤ q) (h1 : q ≤ 1) :
    0 ≤ (jsRound (q * 100) : ℚ) / 100 ∧ (jsRound (q * 100) : ℚ) / 100 ≤ 1 := by
  unfold jsRound
  constructor
  · apply div_nonneg _ (by norm_num)
    have hz : (0 : ℤ) ≤ ⌊q * 100 + 1/2⌋ := Int.floor_nonneg.mpr (by linarith)
    exact_mod_cast hz
  · rw [div_le_one (by norm_num)]
    have hfl : ⌊q * 100 + 1/2⌋ ≤ ⌊(201 : ℚ)/2⌋ := Int.floor_le_floor (by linarith)
    have h201 : ⌊(201 : ℚ)/2⌋ = 100 := by
      rw [Int.floor_eq_iff]
      norm_num
    rw [h201] at hfl
    exact_mod_cast hfl

/-- Claim C4: the combined recommendation score
`0.4·interest + 0.3·popularity + 0.2·freshness + 0.1·author`, capped at
1, always lies within `[0, 1]` (in fact the cap is redundant since the
weights sum to 1); the controller exposes exactly this value rounded to
2 decimal places by `Math.round(score·100)/100`, and the rounded value
also lies within `[0, 1]`. -/
theorem recommendationScore_bounds (articles : List Article)
    (interactions : List Interaction) (now : ℤ) (user : User) (article : Article) :
    0 ≤ (calculateRecommendationScore articles interactions now user article).score ∧
      (calculateRecommendationScore articles interactions now user article).score ≤ 1 ∧
      formatRecommendations [calculateRecommendationScore articles interactions now user
          article] =
        [⟨(calculateRecommendationScore articles interactions now user article).article,
          (jsRound ((calculateRecommendationScore articles interactions now user
            article).score * 100) : ℚ) / 100,
          (calculateRecommendationScore articles interactions now user article).reasons⟩] ∧
      0 ≤ (jsRound ((calculateRecommendationScore articles interactions now user
          article).score * 100) : ℚ) / 100 ∧
      (jsRound ((calculateRecommendationScore articles interactions now user
          article).score * 100) : ℚ) / 100 ≤ 1 := by
  obtain ⟨hi0, hi1⟩ := interestScore_bounds user.interests article.tags
  obtain ⟨hp0, hp1⟩ := popularityScore_bounds interactions article.id
  obtain ⟨hf0, hf1⟩ := freshnessScore_bounds now article.createdAt
  obtain ⟨ha0, ha1⟩ := authorScore_bounds articles interactions article.author
  have hscore : (calculateRecommendationScore articles interactions now user article).score =
      min (calculateInterestScore user.interests article.tags * 0.4 +
        calculatePopularityScore interactions article.id * 0.3 +
        calculateFreshnessScore now article.createdAt * 0.2 +
        calculateAuthorScore articles interactions article.author * 0.1) 1 := rfl
  have h0 : 0 ≤ (calculateRecommendationScore articles interactions now user article).score := by
    rw [hscore]
    apply le_min _ (by norm_num)
    nlinarith
  have h1 : (calculateRecommendationScore articles interactions now user article).score ≤ 1 := by
    rw [hscore]
    exact min_le_right _ _
  obtain ⟨hr0, hr1⟩ := jsRound_div_bounds _ h0 h1
  exact ⟨h0, h1, rfl, hr0, hr1⟩

/-- Every kept sentence candidate is longer than 15 characters. -/
theorem length_gt_of_mem_splitIntoSentences {text s : String}
    (h : s ∈ splitIntoSentences text) : 15 < s.length := by
  unfold splitIntoSentences at h
  rcases List.mem_filter.mp h with ⟨-, hp⟩
  simp only [Bool.and_eq_true, decide_eq_true_eq] at hp
  exact hp.1

/-- The join of a non-empty list is at least as long as its head. -/
theorem jsJoin_length_head (sep s : String) (xs : List String) :
    s.length ≤ (jsJoin sep (s :: xs)).length := by
  cases xs with
  | nil => simp [jsJoin]
  | cons y ys =>
    rw [jsJoin]
    simp only [String.length_append]
    omega

/-- When scoring occurs, exactly `maxSentences` sentences are
selected. -/
theorem topSentences_length (L : LibFuns) (content : String) (config : SummaryConfig)
    (h : config.maxSentences.getD 3 < (splitIntoSentences content).length) :
    (topSentences L content config).length = config.maxSentences.getD 3 := by
  unfold topSentences
  rw [length_sortCmp, List.length_take, length_sortCmp]
  have hlen : (calculateSentenceScores L (splitIntoSentences content)).length =
      (splitIntoSentences content).length := by
    unfold calculateSentenceScores
    simp
  rw [hlen]
  exact min_eq_left (le_of_lt h)

/-- Every scored record carries one of the split sentences. -/
theorem sentence_mem_of_mem_calcScores {L : LibFuns} {sentences : List String}
    {x : ScoredSentence} (hx : x ∈ calculateSentenceScores L sentences) :
    x.sentence ∈ sentences := by
  simp only [calculateSentenceScores, List.mem_map, List.mem_range] at hx
  rcases hx with ⟨i, hi, rfl⟩
  show sentences.getD i "" ∈ sentences
  rw [List.getD_eq_getElem?_getD, List.getElem?_eq_getElem hi]
  exact List.getElem_mem hi

/-- Every selected record carries one of the split sentences. -/
theorem sentence_mem_of_mem_topSentences {L : LibFuns} {content : String}
    {config : SummaryConfig} {x : ScoredSentence}
    (hx : x ∈ topSentences L content config) :
    x.sentence ∈ splitIntoSentences content := by
  unfold topSentences at hx
  rw [mem_sortCmp] at hx
  have hx2 := List.take_subset _ _ hx
  rw [mem_sortCmp] at hx2
  exact sentence_mem_of_mem_calcScores hx2

/-- The extractive summary is non-empty whenever at least one sentence
survives the noise filter and at least one sentence is requested. -/
theorem generateSummary_ne_empty (L : LibFuns) (content : String) (config : SummaryConfig)
    (hne : splitIntoSentences content ≠ [])
    (hm : 1 ≤ config.maxSentences.getD 3) :
    generateSummary L content config ≠ "" := by
  unfold generateSummary
  dsimp only
  by_cases hc : (splitIntoSentences content).length ≤ config.maxSentences.getD 3
  · rw [if_pos hc]
    obtain ⟨s, xs, hsx⟩ : ∃ s xs, splitIntoSentences content = s :: xs := by
      cases hspl : splitIntoSentences content with
      | nil => exact absurd hspl hne
      | cons a l => exact ⟨a, l, rfl⟩
    rw [hsx]
    intro h0
    have hmem : s ∈ splitIntoSentences content := by
      rw [hsx]
      exact List.mem_cons_self s xs
    have hs15 : 15 < s.length := length_gt_of_mem_splitIntoSentences hmem
    have hj := jsJoin_length_head " " s xs
    rw [h0] at hj
    simp at hj
    omega
  · rw [if_neg hc]
    have hmax : config.maxSentences.getD 3 < (splitIntoSentences content).length :=
      not_le.mp hc
    have hlen := topSentences_length L content config hmax
    obtain ⟨t, ts, hts⟩ : ∃ t ts, topSentences L content config = t :: ts := by
      cases hcase : topSentences L content config with
      | nil =>
        rw [hcase] at hlen
        simp at hlen
        omega
      | cons a l => exact ⟨a, l, rfl⟩
    have hmem : t ∈ topSentences L content config := by
      rw [hts]
      exact List.mem_cons_self t ts
    have ht : t.sentence ∈ splitIntoSentences content :=
      sentence_mem_of_mem_topSentences hmem
    have hs15 : 15 < t.sentence.length := length_gt_of_mem_splitIntoSentences ht
    rw [hts, List.map_cons]
    intro h0
    have hj := jsJoin_length_head " " t.sentence (ts.map (fun x => x.sentence))
    rw [h0] at hj
    simp at hj
    omega

/-- If every listed provider attempt failed or was rejected by the
validator, the fallback-chain scan finds nothing. -/
theorem findSome?_attempt_eq_none (content : String) (config : SummaryConfig) :
    ∀ ps : List (String × Option String),
      (∀ p ∈ ps, ∀ s, p.2 = some s → isValidSummary s content = false) →
      (ps.findSome? (fun p =>
        match p.2 with
        | some summary =>
          if isValidSummary summary content then
            some (⟨summary, p.1, jsOrElse config.model "default",
              SummaryMethod.ai⟩ : BestSummary)
          else none
        | none => none)) = none
  | [], _ => rfl
  | p :: ps, h => by
    rw [List.findSome?_cons]
    have hrest := findSome?_attempt_eq_none content config ps
      (fun q hq => h q (List.mem_cons_of_mem p hq))
    rcases hcase : p.2 with _ | s
    · simpa using hrest
    · simpa [h p (List.mem_cons_self p ps) s hcase] using hrest

/-- Claim C1, amended: if every provider attempt fails or is rejected
by the validator, `generateBestSummary` returns the extractive record
(provider `extractive`, model `tf-idf`, method `extractive`) whose
summary is the extractive summarizer's output; that summary is
non-empty provided the text yields at least one qualifying sentence and
`maxSentences ≥ 1`, but for a text with no qualifying sentence the
fallback summary is the empty string (the claimed unconditional
non-emptiness fails — see the counterexample).  Generation itself is a
total function: it never fails. -/
theorem generateBestSummary_fallback (L : LibFuns) (o : ProviderOutcomes)
    (content : String) (config : SummaryConfig)
    (h1 : ∀ s, o.ollama = some s → isValidSummary s content = false)
    (h2 : ∀ s, o.cohere = some s → isValidSummary s content = false)
    (h3 : ∀ s, o.huggingface = some s → isValidSummary s content = false)
    (h4 : ∀ s, o.openai = some s → isValidSummary s content = false)
    (hne : splitIntoSentences content ≠ [])
    (hm : 1 ≤ config.maxSentences.getD 3) :
    generateBestSummary L o content config =
        ⟨generateSummary L content config, "extractive", "tf-idf",
          SummaryMethod.extractive⟩ ∧
      (generateBestSummary L o content config).summary ≠ "" := by
  have hall : ∀ p ∈ [("ollama", o.ollama), ("cohere", o.cohere),
      ("huggingface", o.huggingface), ("openai", o.openai)],
      ∀ s, p.2 = some s → isValidSummary s content = false := by
    intro p hp
    simp only [List.mem_cons, List.not_mem_nil, or_false] at hp
    rcases hp with rfl | rfl | rfl | rfl
    · exact h1
    · exact h2
    · exact h3
    · exact h4
  have hfall : generateBestSummary L o content config =
      ⟨generateSummary L content config, "extractive", "tf-idf",
        SummaryMethod.extractive⟩ := by
    unfold generateBestSummary
    dsimp only
    rw [findSome?_attempt_eq_none content config _ hall]
  refine ⟨hfall, ?_⟩
  rw [hfall]
  exact generateSummary_ne_empty L content config hne hm

/-- Claim C1 as stated is false in its non-emptiness part: with every
provider failing and a text too short to yield any qualifying sentence,
the fallback record is produced (method `extractive`, provider
`extractive`, model `tf-idf`) but its summary is the empty string. -/
theorem generateBestSummary_counterexample :
    (generateBestSummary idLib ⟨none, none, none, none⟩ "Short text." {}).method =
        SummaryMethod.extractive ∧
      (generateBestSummary idLib ⟨none, none, none, none⟩ "Short text." {}).provider =
        "extractive" ∧
      (generateBestSummary idLib ⟨none, none, none, none⟩ "Short text." {}).model =
        "tf-idf" ∧
      (generateBestSummary idLib ⟨none, none, none, none⟩ "Short text." {}).summary = "" := by
  refine ⟨by decide, by decide, by decide, by decide⟩

/-- Witness for the amended C1 at a concrete input: every provider
fails, the text has qualifying sentences, and the fallback result is
the non-empty extractive summary. -/
theorem generateBestSummary_fallback_witness :
    generateBestSummary idLib ⟨none, none, none, none⟩
        "the first sentence is quite long indeed. the second sentence is also quite long."
        {} =
        ⟨generateSummary idLib
          "the first sentence is quite long indeed. the second sentence is also quite long."
          {}, "extractive", "tf-idf", SummaryMethod.extractive⟩ ∧
      (generateBestSummary idLib ⟨none, none, none, none⟩
        "the first sentence is quite long indeed. the second sentence is also quite long."
        {}).summary ≠ "" :=
  generateBestSummary_fallback idLib ⟨none, none, none, none⟩
    "the first sentence is quite long indeed. the second sentence is also quite long."
    {} (fun _ h => nomatch h) (fun _ h => nomatch h) (fun _ h => nomatch h)
    (fun _ h => nomatch h) (by decide) (by decide)
